import Mathlib

/-!
Shallow embedding of the transactional page-storage layer of the blot-rs
repository (src/db.rs), together with spec-modelled definitions for the
components that the database module references but whose source modules
(crate::common::meta, crate::tx, crate::errors, crate::freelist) are not
part of the repository snapshot.  Machine integers (i64, isize, i32) are
modelled as Int, u64/usize as Nat; Arc/Mutex wrappers are dropped in the
pure model and mutation becomes explicit state passing.
-/

namespace Blot

/-- Modelled from the spec: the error taxonomy of §7 (crate::errors is not
under src/).  Only the constructors needed by the claims are included. -/
inductive DbError where
  | corrupt
  | timeout
  | txClosed
  | txNotWritable
  | io
deriving DecidableEq, Repr

/-- Embedding of std::time::Duration as used by db.rs: a seconds/nanoseconds
pair, with `from_secs` the only constructor the source uses. -/
structure Duration where
  secs : Nat
  nanos : Nat
deriving DecidableEq, Repr

/-- Duration::from_secs. -/
def Duration.from_secs (s : Nat) : Duration := ⟨s, 0⟩

/-- FreelistType (src/db.rs:20-26): the type of the freelist backend.
Exactly two variants: Array and HashMap. -/
inductive FreelistType where
  | Array
  | HashMap
deriving DecidableEq, Repr

/-- impl Display for FreelistType (src/db.rs:28-35): Array renders as
"array", HashMap as "hashmap". -/
def FreelistType.display : FreelistType → String
  | .Array => "array"
  | .HashMap => "hashmap"

/-- Modelled from the spec: TxStats (crate::tx is not under src/), the
transaction-level counters (page allocations, cursor operations, write
counters; §6 "Stats surface").  Counters are i64, modelled as Int. -/
structure TxStats where
  page_count : Int
  page_alloc : Int
  cursor_count : Int
  write : Int
  write_time : Int
deriving DecidableEq, Repr

/-- Modelled from the spec: TxStats::default — all counters zero. -/
def TxStats.default : TxStats := ⟨0, 0, 0, 0, 0⟩

/-- Modelled from the spec: TxStats::clone — a field-by-field copy. -/
def TxStats.clone (t : TxStats) : TxStats :=
  { page_count := t.page_count
    page_alloc := t.page_alloc
    cursor_count := t.cursor_count
    write := t.write
    write_time := t.write_time }

/-- Modelled from the spec: TxStats::sub — the field-by-field difference of
two sets of transaction counters. -/
def TxStats.sub (t o : TxStats) : TxStats :=
  { page_count := t.page_count - o.page_count
    page_alloc := t.page_alloc - o.page_alloc
    cursor_count := t.cursor_count - o.cursor_count
    write := t.write - o.write
    write_time := t.write_time - o.write_time }

/-- Stats (src/db.rs:340-356): statistics about the database.  i64 fields
are modelled as Int. -/
structure Stats where
  tx_stats : TxStats
  free_page_n : Int
  pending_page_n : Int
  free_alloc : Int
  freelist_inuse : Int
  tx_n : Int
  open_tx_n : Int
deriving DecidableEq, Repr

/-- Stats::new (src/db.rs:359-369): all counters zero. -/
def Stats.new : Stats :=
  { tx_stats := TxStats.default
    free_page_n := 0
    pending_page_n := 0
    free_alloc := 0
    freelist_inuse := 0
    tx_n := 0
    open_tx_n := 0 }

/-- impl Clone for Stats (src/db.rs:439-451): a field-by-field copy, with
tx_stats cloned recursively. -/
def Stats.clone (s : Stats) : Stats :=
  { tx_stats := s.tx_stats.clone
    free_page_n := s.free_page_n
    pending_page_n := s.pending_page_n
    free_alloc := s.free_alloc
    freelist_inuse := s.freelist_inuse
    tx_n := s.tx_n
    open_tx_n := s.open_tx_n }

/-- Stats::sub (src/db.rs:420-436): the difference between two sets of
database stats.  With a missing baseline it returns a copy of self;
otherwise it differences tx_stats and tx_n and copies the remaining fields
from self. -/
def Stats.sub (s : Stats) (other : Option Stats) : Stats :=
  match other with
  | none => s.clone
  | some o =>
      { tx_stats := s.tx_stats.sub o.tx_stats
        free_page_n := s.free_page_n
        pending_page_n := s.pending_page_n
        free_alloc := s.free_alloc
        freelist_inuse := s.freelist_inuse
        tx_n := s.tx_n - o.tx_n
        open_tx_n := s.open_tx_n }

/-- Embedding of the OpenFile function-pointer type of Options::open_file
(fn(&str, i32, u32) -> Result<File>); the File handle itself carries no
data relevant to the claims and is modelled as Unit. -/
def OpenFileFn : Type := String → Int → Nat → Except DbError Unit

/-- Options (src/db.rs:233-293): the options that can be set when opening a
database.  Fields appear in source order; Duration, i32, u64, usize are
modelled as above.  Note that the struct has no batch-related fields. -/
structure Options where
  timeout : Duration
  no_grow_sync : Bool
  no_freelist_sync : Bool
  pre_load_freelist : Bool
  freelist_type : FreelistType
  read_only : Bool
  mmap_flags : Int
  initial_mmap_size : Nat
  page_size : Nat
  no_sync : Bool
  open_file : Option OpenFileFn
  mlock : Bool

/-- impl Default for Options (src/db.rs:316-334). -/
def Options.default : Options :=
  { timeout := Duration.from_secs 0
    no_grow_sync := false
    no_freelist_sync := false
    pre_load_freelist := false
    freelist_type := FreelistType.Array
    read_only := false
    mmap_flags := 0
    initial_mmap_size := 0
    page_size := 0
    no_sync := false
    open_file := none
    mlock := false }

/-- The field names of struct Options (src/db.rs:233-293), in declaration
order, as a checkable reflection of which configuration options a caller
constructing Options can set. -/
def optionsFieldNames : List String :=
  ["timeout", "no_grow_sync", "no_freelist_sync", "pre_load_freelist",
   "freelist_type", "read_only", "mmap_flags", "initial_mmap_size",
   "page_size", "no_sync", "open_file", "mlock"]

/-- The field names of struct RawDB (src/db.rs:143-193), in declaration
order. -/
def rawDBFieldNames : List String :=
  ["stats", "strict_mode", "no_sync", "no_freelist_sync", "freelist_type",
   "no_grow_sync", "pre_load_freelist", "mmap_flags", "max_batch_size",
   "max_batch_delay", "alloc_size", "mlock", "path", "file", "dataref",
   "data", "datasz", "meta0", "meta1", "page_size", "opened", "rwtx",
   "txs", "freelist", "freelist_load", "page_pool", "batch_mu", "rwlock",
   "metalock", "mmaplock", "statlock", "ops", "read_only"]

/-- Modelled from the spec: Meta, the superblock (crate::common::meta is
not under src/).  Fields per §3: magic, format version, page size, root
pgid, freelist pgid, highest allocated pgid, txid, and a checksum over all
preceding fields. -/
structure Meta where
  magic : Nat
  version : Nat
  page_size : Nat
  root : Nat
  freelist : Nat
  pgid : Nat
  txid : Nat
  checksum : Nat
deriving DecidableEq, Repr

/-- Modelled from the spec: the expected magic constant of a meta page. -/
def metaMagic : Nat := 0xED0CDAED

/-- Modelled from the spec: the expected format version of a meta page. -/
def metaVersion : Nat := 2

/-- Modelled from the spec: the checksum over all meta fields except the
checksum itself (§4.2).  A concrete 64-bit mixing function stands in for
the hash used by the implementation; only its independence from the
checksum field matters for the claims. -/
def metaChecksum (m : Meta) : Nat :=
  (m.magic + 3 * m.version + 5 * m.page_size + 7 * m.root +
   11 * m.freelist + 13 * m.pgid + 17 * m.txid) % 2 ^ 64

/-- Modelled from the spec: `validate(candidate)` (§4.2) checks magic,
version, and checksum. -/
def Meta.validate (m : Meta) : Bool :=
  m.magic == metaMagic && m.version == metaVersion &&
    m.checksum == metaChecksum m

/-- Modelled from the spec: `select(meta_a, meta_b)` (§4.2) picks the valid
meta with the larger txid; if only one is valid it picks that one; if both
are invalid the database is unreadable (Corrupt). -/
def metaSelect (a b : Meta) : Except DbError Meta :=
  match a.validate, b.validate with
  | true, true => if b.txid ≤ a.txid then Except.ok a else Except.ok b
  | true, false => Except.ok a
  | false, true => Except.ok b
  | false, false => Except.error DbError.corrupt

/-- A meta with the given txid whose checksum field is made consistent, so
that it passes validation. -/
def mkValidMeta (txid : Nat) : Meta :=
  let m : Meta :=
    { magic := metaMagic, version := metaVersion, page_size := 4096,
      root := 3, freelist := 2, pgid := 4, txid := txid, checksum := 0 }
  { m with checksum := metaChecksum m }

/-- Modelled from the spec: the transaction handle Tx (crate::tx is not
under src/).  Only default construction (Tx::new) is exercised by db.rs;
a fresh transaction is read-only with txid 0 and no captured meta. -/
structure Tx where
  txid : Nat
  writable : Bool
  meta : Option Meta
deriving DecidableEq, Repr

/-- Modelled from the spec: Tx::new, the default transaction value. -/
def Tx.new : Tx := ⟨0, false, none⟩

/-- Embedding of RawDB (src/db.rs:143-193).  Lock guards
(rwlock/metalock/mmaplock/statlock/freelist_load), the file handle, the
mmap buffers, the page pool, the batch slot and the Ops function-pointer
table carry no data bearing on the claims and are omitted; Arc/Mutex
wrappers are dropped. -/
structure RawDB where
  stats : Stats
  strict_mode : Bool
  no_sync : Bool
  no_freelist_sync : Bool
  freelist_type : FreelistType
  no_grow_sync : Bool
  pre_load_freelist : Bool
  mmap_flags : Int
  max_batch_size : Int
  max_batch_delay : Duration
  alloc_size : Nat
  mlock : Bool
  path : String
  datasz : Nat
  meta0 : Option Meta
  meta1 : Option Meta
  page_size : Nat
  opened : Bool
  txs : List Tx
  read_only : Bool
deriving DecidableEq, Repr

/-- DB (src/db.rs:200) is a newtype over Arc of RawDB; in the pure model the
Arc indirection is dropped and a DB is its RawDB state. -/
abbrev DB := RawDB

/-- DB::begin_tx (src/db.rs:203-207).  The source takes &self, clones the
Arc into a local that is never used again, constructs Tx::new() and returns
Ok(tx); no field of RawDB (in particular neither txs nor meta0/meta1) is
read or written, which the embedding records by returning the state
unchanged alongside the result. -/
def DB.begin_tx (db : DB) : DB × Except DbError Tx :=
  (db, Except.ok Tx.new)

/-- Modelled Rust ownership state for WeakDB (src/db.rs:211-225): a heap of
Arc allocations of RawDB, giving each allocation id its strong count and
stored value. -/
structure ArcHeap where
  strong : Nat → Nat
  val : Nat → RawDB

/-- A DB handle in the heap model: the id of the Arc allocation it owns a
strong reference into. -/
structure DBHandle where
  id : Nat
deriving DecidableEq, Repr

/-- WeakDB (src/db.rs:211): a weak reference, either dangling-from-birth
(Weak::new, holding no allocation) or pointing at an allocation id. -/
def WeakDB : Type := Option Nat

/-- WeakDB::new (src/db.rs:214-216): wraps Weak::new(), which holds no
allocation and can never upgrade. -/
def WeakDB.new : WeakDB := none

/-- WeakDB::from (src/db.rs:222-224): Arc::downgrade on the handle's
allocation. -/
def WeakDB.from (db : DBHandle) : WeakDB := some db.id

/-- WeakDB::upgrade (src/db.rs:218-220): Weak::upgrade followed by mapping
the DB constructor; succeeds exactly when the allocation still has a
strong reference. -/
def WeakDB.upgrade (h : ArcHeap) (w : WeakDB) : Option DBHandle :=
  match w with
  | none => none
  | some i => if h.strong i ≠ 0 then some ⟨i⟩ else none

/-- The RawDB an alive handle refers to in the heap model. -/
def DBHandle.raw (h : ArcHeap) (d : DBHandle) : RawDB := h.val d.id

/-- Modelled from the spec: the DB's aggregate statistics cell, which is
only updated when a transaction closes (§4.5, §6; DbApi::stats at
src/db.rs:136 is a trait declaration with no implementation under src/). -/
structure DbStatsCell where
  aggregate : Stats
deriving DecidableEq, Repr

/-- Modelled from the spec: `stats()` returns a point-in-time copy of the
aggregate, produced by cloning under the stats lock, not a live
reference. -/
def DbStatsCell.statsSnapshot (d : DbStatsCell) : Stats := d.aggregate.clone

/-- Modelled from the spec: a later update of the DB's aggregate stats (as
happens when a transaction closes). -/
def DbStatsCell.setAggregate (_ : DbStatsCell) (s : Stats) : DbStatsCell :=
  ⟨s⟩

/-- Modelled from the spec: a committed Meta snapshot as the MVCC layer
sees it — its txid together with the set of pgids reachable from its root
(the tree walk itself is out of scope per §1, so reachability is carried
directly). -/
structure MetaSnap where
  txid : Nat
  reach : List Nat
deriving DecidableEq, Repr

/-- A registered read transaction: its reader id and the Meta snapshot it
captured at begin time (§3 Transaction, §4.4 begin). -/
structure Reader where
  rid : Nat
  meta : MetaSnap
deriving DecidableEq, Repr

/-- Modelled from the spec: the shared MVCC state (§5) — the page store
(pgid to page contents), the single published authoritative Meta, the set
of currently registered readers, and a fresh-reader-id counter standing
for the strictly increasing txid assignment. -/
structure MvccState where
  store : Nat → Nat
  published : MetaSnap
  readers : List Reader
  nextRid : Nat

/-- The events of one writer interleaved with any number of readers:
a reader begins (capturing the published Meta), the writer stages a page
write, the writer commits (atomically publishing a new Meta), or a reader
closes. -/
inductive MvccEvent where
  | beginReader : MvccEvent
  | writePage : Nat → Nat → MvccEvent
  | commit : MetaSnap → MvccEvent
  | closeReader : Nat → MvccEvent

/-- Modelled from the spec: one interleaving step (§4.4, §5).  begin
registers a fresh reader holding the published Meta by value; the writer's
copy-on-write discipline plus freelist pending-by-txid reclamation mean a
page write never touches a page reachable from the published Meta or from
any registered reader's Meta (such a write is not performed); commit is
the single atomic publication point; close deregisters a reader. -/
def mvccStep (st : MvccState) : MvccEvent → MvccState
  | MvccEvent.beginReader =>
      { st with
        readers := ⟨st.nextRid, st.published⟩ :: st.readers
        nextRid := st.nextRid + 1 }
  | MvccEvent.writePage q v =>
      if q ∈ st.published.reach ∨ ∃ r ∈ st.readers, q ∈ r.meta.reach then
        st
      else
        { st with store := fun x => if x = q then v else st.store x }
  | MvccEvent.commit m => { st with published := m }
  | MvccEvent.closeReader i =>
      { st with readers := st.readers.filter (fun r => r.rid != i) }

/-- Running a whole interleaving of events from a state. -/
def mvccRun (st : MvccState) : List MvccEvent → MvccState
  | [] => st
  | e :: es => mvccRun (mvccStep st e) es

/-- State well-formedness: every registered reader's id is below the
fresh-id counter (ids are handed out in increasing order). -/
def ReadersFresh (st : MvccState) : Prop :=
  ∀ r ∈ st.readers, r.rid < st.nextRid

/-- What a reader reads: the current contents of a page of its snapshot. -/
def readPage (st : MvccState) (p : Nat) : Nat := st.store p

/-- A concrete freshly-opened database state used to evaluate the claims on
explicit inputs. -/
def sampleDB : DB :=
  { stats := Stats.new
    strict_mode := false
    no_sync := false
    no_freelist_sync := false
    freelist_type := FreelistType.Array
    no_grow_sync := false
    pre_load_freelist := false
    mmap_flags := 0
    max_batch_size := 1000
    max_batch_delay := Duration.from_secs 0
    alloc_size := 0
    mlock := false
    path := "db"
    datasz := 0
    meta0 := some (mkValidMeta 1)
    meta1 := some (mkValidMeta 2)
    page_size := 4096
    opened := true
    txs := []
    read_only := false }

/-- A concrete Arc heap in which allocation 0 is alive and holds the sample
database. -/
def sampleHeap : ArcHeap := ⟨fun _ => 1, fun _ => sampleDB⟩

/-- A concrete stats cell holding the zero aggregate. -/
def sampleCell : DbStatsCell := ⟨Stats.new⟩

/-- A concrete later aggregate differing from the zero aggregate. -/
def bumpedStats : Stats := { Stats.new with tx_n := 5 }

/-- A concrete MVCC state: a committed Meta with txid 1 reaching pages 2
and 3, page contents 10 and 11, no registered readers. -/
def sampleMvcc : MvccState :=
  { store := fun x => if x = 2 then 10 else if x = 3 then 11 else 0
    published := ⟨1, [2, 3]⟩
    readers := []
    nextRid := 0 }

/-- A concrete interleaving after a reader begins: the writer stages page 5
and commits a new Meta with txid 2 that drops page 2 for page 5. -/
def sampleEvents : List MvccEvent :=
  [MvccEvent.writePage 5 99, MvccEvent.commit ⟨2, [5, 3]⟩]

theorem mvccStep_nextRid_mono (st : MvccState) (e : MvccEvent) :
    st.nextRid ≤ (mvccStep st e).nextRid := by
  cases e with
  | beginReader => exact Nat.le_succ _
  | writePage q v =>
      simp only [mvccStep]
      split <;> exact Nat.le_refl _
  | commit m => exact Nat.le_refl _
  | closeReader i => exact Nat.le_refl _

theorem mvccRun_nextRid_mono (es : List MvccEvent) (st : MvccState) :
    st.nextRid ≤ (mvccRun st es).nextRid := by
  induction es generalizing st with
  | nil => exact Nat.le_refl _
  | cons e es ih =>
      exact Nat.le_trans (mvccStep_nextRid_mono st e) (ih (mvccStep st e))

theorem mvccStep_readers_mem (st : MvccState) (e : MvccEvent) (r : Reader)
    (h : r ∈ (mvccStep st e).readers) :
    r ∈ st.readers ∨ r.rid = st.nextRid := by
  cases e with
  | beginReader =>
      rcases List.mem_cons.mp h with h0 | h0
      · subst h0; exact Or.inr rfl
      · exact Or.inl h0
  | writePage q v =>
      simp only [mvccStep] at h
      split at h <;> exact Or.inl h
  | commit m => exact Or.inl h
  | closeReader i => exact Or.inl (List.mem_filter.mp h).1

theorem mvccRun_readers_mem (es : List MvccEvent) (st : MvccState)
    (r : Reader) (h : r ∈ (mvccRun st es).readers) :
    r ∈ st.readers ∨ st.nextRid ≤ r.rid := by
  induction es generalizing st with
  | nil => exact Or.inl h
  | cons e es ih =>
      rcases ih (mvccStep st e) h with h0 | h0
      · rcases mvccStep_readers_mem st e r h0 with h1 | h1
        · exact Or.inl h1
        · exact Or.inr (Nat.le_of_eq h1.symm)
      · exact Or.inr (Nat.le_trans (mvccStep_nextRid_mono st e) h0)

theorem mvccStep_fresh (st : MvccState) (e : MvccEvent)
    (hf : ReadersFresh st) : ReadersFresh (mvccStep st e) := by
  cases e with
  | beginReader =>
      intro r hr
      rcases List.mem_cons.mp hr with h0 | h0
      · subst h0; exact Nat.lt_succ_self _
      · exact Nat.lt_trans (hf r h0) (Nat.lt_succ_self _)
  | writePage q v =>
      intro r hr
      have hre : (mvccStep st (MvccEvent.writePage q v)).readers
          = st.readers := by
        simp only [mvccStep]; split <;> rfl
      have hne : (mvccStep st (MvccEvent.writePage q v)).nextRid
          = st.nextRid := by
        simp only [mvccStep]; split <;> rfl
      rw [hre] at hr
      rw [hne]
      exact hf r hr
  | commit m => intro r hr; exact hf r hr
  | closeReader i => intro r hr; exact hf r (List.mem_filter.mp hr).1

theorem mvccStep_store_frame (st : MvccState) (e : MvccEvent) (r : Reader)
    (p : Nat) (hr : r ∈ st.readers) (hp : p ∈ r.meta.reach) :
    (mvccStep st e).store p = st.store p := by
  cases e with
  | beginReader => rfl
  | writePage q v =>
      simp only [mvccStep]
      split
      · rfl
      · rename_i hguard
        by_cases hpq : p = q
        · exact absurd (Or.inr ⟨r, hr, hpq ▸ hp⟩) hguard
        · simp only [if_neg hpq]
  | commit m => rfl
  | closeReader i => rfl

theorem mvccRun_fresh (es : List MvccEvent) (st : MvccState)
    (hf : ReadersFresh st) : ReadersFresh (mvccRun st es) := by
  induction es generalizing st with
  | nil => exact hf
  | cons e es ih => exact ih (mvccStep st e) (mvccStep_fresh st e hf)

/-- A reader registered both at the start and at the end of an interleaving
sees every page of its snapshot unchanged throughout. -/
theorem mvcc_frame (es : List MvccEvent) (st : MvccState) (r : Reader)
    (hf : ReadersFresh st) (hr : r ∈ st.readers)
    (hrun : r ∈ (mvccRun st es).readers) :
    ∀ p ∈ r.meta.reach, (mvccRun st es).store p = st.store p := by
  induction es generalizing st with
  | nil => intro p _; rfl
  | cons e es ih =>
      intro p hp
      have hstep : r ∈ (mvccStep st e).readers := by
        rcases mvccRun_readers_mem es (mvccStep st e) r hrun with h0 | h0
        · exact h0
        · exact absurd (Nat.lt_of_lt_of_le (hf r hr)
            (mvccStep_nextRid_mono st e)) (Nat.not_lt_of_le h0)
      have htail := ih (mvccStep st e) (mvccStep_fresh st e hf) hstep hrun p hp
      calc (mvccRun st (e :: es)).store p
          = (mvccStep st e).store p := htail
        _ = st.store p := mvccStep_store_frame st e r p hr hp

/-- C1: for every pair of meta slots, `select` picks the valid
(magic/version/checksum-passing) slot with the larger txid; if exactly one
slot is invalid the other, valid slot is selected; if both slots are
invalid the result is a Corrupt error and the database is unreadable. -/
theorem meta_select_authoritative (a b : Meta) :
    (a.validate = true → b.validate = true → b.txid < a.txid →
      metaSelect a b = Except.ok a)
    ∧ (a.validate = true → b.validate = true → a.txid < b.txid →
      metaSelect a b = Except.ok b)
    ∧ (a.validate = true → b.validate = false →
      metaSelect a b = Except.ok a)
    ∧ (a.validate = false → b.validate = true →
      metaSelect a b = Except.ok b)
    ∧ (a.validate = false → b.validate = false →
      metaSelect a b = Except.error DbError.corrupt) := by
  refine ⟨?_, ?_, ?_, ?_, ?_⟩
  · intro ha hb hlt
    simp [metaSelect, ha, hb, Nat.le_of_lt hlt]
  · intro ha hb hlt
    simp [metaSelect, ha, hb, Nat.not_le.mpr hlt]
  · intro ha hb
    simp [metaSelect, ha, hb]
  · intro ha hb
    simp [metaSelect, ha, hb]
  · intro ha hb
    simp [metaSelect, ha, hb]

/-- Witness for C1 at two concrete valid metas with txids 5 and 3: the slot
with txid 5 is selected. -/
theorem meta_select_authoritative_witness :
    (mkValidMeta 5).validate = true ∧ (mkValidMeta 3).validate = true
    ∧ (mkValidMeta 3).txid < (mkValidMeta 5).txid
    ∧ metaSelect (mkValidMeta 5) (mkValidMeta 3)
        = Except.ok (mkValidMeta 5) :=
  ⟨by decide, by decide, by decide,
    (meta_select_authoritative (mkValidMeta 5) (mkValidMeta 3)).1
      (by decide) (by decide) (by decide)⟩

/-- C3 (code-bug evaluation): DB::begin_tx at a database with no open read
transactions returns Ok(Tx::new()) while leaving the database state — in
particular the open-readers list txs and the two meta slots — untouched;
the returned transaction is not registered in txs and carries no captured
Meta, contrary to the claim. -/
theorem begin_tx_does_not_register :
    (DB.begin_tx sampleDB).2 = Except.ok Tx.new
    ∧ (DB.begin_tx sampleDB).1 = sampleDB
    ∧ (DB.begin_tx sampleDB).1.txs = []
    ∧ Tx.new ∉ (DB.begin_tx sampleDB).1.txs
    ∧ Tx.new.meta = none :=
  ⟨rfl, rfl, rfl, by decide, rfl⟩

/-- C4: Stats::sub with a missing baseline (None) is a documented no-op
returning a copy — every field of the result equals the corresponding
field of the input. -/
theorem stats_sub_none_copy (s : Stats) :
    (s.sub none).tx_stats = s.tx_stats
    ∧ (s.sub none).free_page_n = s.free_page_n
    ∧ (s.sub none).pending_page_n = s.pending_page_n
    ∧ (s.sub none).free_alloc = s.free_alloc
    ∧ (s.sub none).freelist_inuse = s.freelist_inuse
    ∧ (s.sub none).tx_n = s.tx_n
    ∧ (s.sub none).open_tx_n = s.open_tx_n :=
  ⟨rfl, rfl, rfl, rfl, rfl, rfl, rfl⟩

/-- C8: Stats::sub with a present baseline differences only the transaction
counters — tx_stats and tx_n are differenced, while free_page_n,
pending_page_n, free_alloc, freelist_inuse and open_tx_n are copied from
self, the baseline's values for them being ignored. -/
theorem stats_sub_some_frame (s b : Stats) :
    (s.sub (some b)).tx_stats = s.tx_stats.sub b.tx_stats
    ∧ (s.sub (some b)).tx_n = s.tx_n - b.tx_n
    ∧ (s.sub (some b)).free_page_n = s.free_page_n
    ∧ (s.sub (some b)).pending_page_n = s.pending_page_n
    ∧ (s.sub (some b)).free_alloc = s.free_alloc
    ∧ (s.sub (some b)).freelist_inuse = s.freelist_inuse
    ∧ (s.sub (some b)).open_tx_n = s.open_tx_n :=
  ⟨rfl, rfl, rfl, rfl, rfl, rfl, rfl⟩

/-- C5: stats() returns a point-in-time copy of the aggregate — the
snapshot equals the aggregate at call time, a snapshot taken after a later
update returns the new aggregate, and the earlier snapshot is not changed
by the update, so two successive snapshots can be diffed. -/
theorem stats_snapshot_point_in_time (d : DbStatsCell) (s2 : Stats)
    (hne : s2 ≠ d.aggregate) :
    d.statsSnapshot = d.aggregate
    ∧ (d.setAggregate s2).statsSnapshot = s2
    ∧ d.statsSnapshot ≠ (d.setAggregate s2).statsSnapshot :=
  ⟨rfl, rfl, fun h => hne h.symm⟩

/-- Witness for C5 at the zero aggregate and a later aggregate with five
started transactions. -/
theorem stats_snapshot_point_in_time_witness :
    bumpedStats ≠ sampleCell.aggregate
    ∧ (sampleCell.statsSnapshot = sampleCell.aggregate
      ∧ (sampleCell.setAggregate bumpedStats).statsSnapshot = bumpedStats
      ∧ sampleCell.statsSnapshot
          ≠ (sampleCell.setAggregate bumpedStats).statsSnapshot) :=
  ⟨by decide, stats_snapshot_point_in_time sampleCell bumpedStats (by decide)⟩

/-- C6 counterexample: the Options struct has no max_batch_size or
max_batch_delay field, so a caller constructing database Options cannot
set the batch-coalescing thresholds there. -/
theorem options_lack_batch_fields :
    "max_batch_size" ∉ optionsFieldNames
    ∧ "max_batch_delay" ∉ optionsFieldNames :=
  ⟨by decide, by decide⟩

/-- C6 amended: max_batch_size and max_batch_delay are per-database fields
of RawDB (settable on the database handle, as the Batch documentation in
the DbApi trait describes), not members of Options. -/
theorem batch_thresholds_are_db_fields :
    "max_batch_size" ∈ rawDBFieldNames
    ∧ "max_batch_delay" ∈ rawDBFieldNames
    ∧ "max_batch_size" ∉ optionsFieldNames
    ∧ "max_batch_delay" ∉ optionsFieldNames
    ∧ ∀ (d : RawDB) (n : Int) (dur : Duration),
        ({ d with max_batch_size := n, max_batch_delay := dur }
            : RawDB).max_batch_size = n
        ∧ ({ d with max_batch_size := n, max_batch_delay := dur }
            : RawDB).max_batch_delay = dur :=
  ⟨by decide, by decide, by decide, by decide, fun _ _ _ => ⟨rfl, rfl⟩⟩

/-- C7: the freelist backend type has exactly the two values Array and
HashMap, displaying as "array" and "hashmap"; it is selected at
construction time through the Options configuration, whose default is
Array. -/
theorem freelist_backend_two_values :
    (∀ ft : FreelistType,
      ft = FreelistType.Array ∨ ft = FreelistType.HashMap)
    ∧ FreelistType.display FreelistType.Array = "array"
    ∧ FreelistType.display FreelistType.HashMap = "hashmap"
    ∧ Options.default.freelist_type = FreelistType.Array
    ∧ ∀ ft : FreelistType,
        ({ Options.default with freelist_type := ft }
            : Options).freelist_type = ft := by
  refine ⟨?_, rfl, rfl, rfl, fun ft => rfl⟩
  intro ft
  cases ft
  · exact Or.inl rfl
  · exact Or.inr rfl

/-- C9: the weak back-reference round-trips — WeakDB::from on a live handle
upgrades to Some handle sharing the same underlying RawDB, while
WeakDB::new().upgrade() is always None. -/
theorem weakdb_roundtrip (h : ArcHeap) (d : DBHandle)
    (halive : 0 < h.strong d.id) :
    WeakDB.upgrade h (WeakDB.from d) = some d
    ∧ (WeakDB.upgrade h (WeakDB.from d)).map (DBHandle.raw h)
        = some (d.raw h)
    ∧ WeakDB.upgrade h WeakDB.new = none := by
  have hne : h.strong d.id ≠ 0 := Nat.pos_iff_ne_zero.mp halive
  have h1 : WeakDB.upgrade h (WeakDB.from d) = some d := by
    simp [WeakDB.upgrade, WeakDB.from, hne]
  exact ⟨h1, by rw [h1]; rfl, rfl⟩

/-- Witness for C9 at the concrete heap whose allocation 0 is alive and
holds the sample database. -/
theorem weakdb_roundtrip_witness :
    0 < sampleHeap.strong (DBHandle.mk 0).id
    ∧ (WeakDB.upgrade sampleHeap (WeakDB.from ⟨0⟩) = some ⟨0⟩
      ∧ (WeakDB.upgrade sampleHeap
          (WeakDB.from ⟨0⟩)).map (DBHandle.raw sampleHeap)
          = some (DBHandle.raw sampleHeap ⟨0⟩)
      ∧ WeakDB.upgrade sampleHeap WeakDB.new = none) :=
  ⟨by decide, weakdb_roundtrip sampleHeap ⟨0⟩ (by decide)⟩

/-- C10: Options::default yields timeout zero (wait indefinitely), all
boolean policies false, the Array freelist backend, zero mmap flags,
initial mmap size and page size (use the OS default), and no custom
open-file function. -/
theorem options_default_values :
    Options.default.timeout = Duration.from_secs 0
    ∧ Options.default.no_grow_sync = false
    ∧ Options.default.no_freelist_sync = false
    ∧ Options.default.pre_load_freelist = false
    ∧ Options.default.freelist_type = FreelistType.Array
    ∧ Options.default.read_only = false
    ∧ Options.default.mmap_flags = 0
    ∧ Options.default.initial_mmap_size = 0
    ∧ Options.default.page_size = 0
    ∧ Options.default.no_sync = false
    ∧ Options.default.open_file = none
    ∧ Options.default.mlock = false :=
  ⟨rfl, rfl, rfl, rfl, rfl, rfl, rfl, rfl, rfl, rfl, rfl, rfl⟩

/-- C2: in every interleaving of one writer with any number of readers, a
reader that begins after the prefix of events es₁ captures by value exactly
the Meta that is authoritative at its begin time, and for as long as it
stays registered (through any suffix es₂ of writer stages, commits and
other readers' activity) every page readable through that snapshot still
holds its begin-time contents — the reader never observes a mixture of
pre-commit and post-commit pages. -/
theorem mvcc_reader_snapshot_isolation (st0 : MvccState)
    (es₁ es₂ : List MvccEvent) (hf : ReadersFresh st0) :
    (Reader.mk (mvccRun st0 es₁).nextRid (mvccRun st0 es₁).published).meta
      = (mvccRun st0 es₁).published
    ∧ (Reader.mk (mvccRun st0 es₁).nextRid (mvccRun st0 es₁).published
        ∈ (mvccRun (mvccStep (mvccRun st0 es₁) MvccEvent.beginReader)
            es₂).readers →
      ∀ p ∈ (mvccRun st0 es₁).published.reach,
        readPage (mvccRun (mvccStep (mvccRun st0 es₁)
            MvccEvent.beginReader) es₂) p
          = readPage (mvccRun st0 es₁) p) := by
  refine ⟨rfl, ?_⟩
  intro hmem p hp
  have hfB : ReadersFresh (mvccRun st0 es₁) := mvccRun_fresh es₁ st0 hf
  have hfBegin : ReadersFresh
      (mvccStep (mvccRun st0 es₁) MvccEvent.beginReader) :=
    mvccStep_fresh _ _ hfB
  have hrmem : Reader.mk (mvccRun st0 es₁).nextRid
      (mvccRun st0 es₁).published
      ∈ (mvccStep (mvccRun st0 es₁) MvccEvent.beginReader).readers :=
    List.mem_cons_self _ _
  exact mvcc_frame es₂ (mvccStep (mvccRun st0 es₁) MvccEvent.beginReader)
    (Reader.mk (mvccRun st0 es₁).nextRid (mvccRun st0 es₁).published)
    hfBegin hrmem hmem p hp

/-- Witness for C2 at the concrete initial state with a committed Meta
reaching pages 2 and 3, a reader beginning immediately, then a writer
staging page 5 and committing a new Meta. -/
theorem mvcc_reader_snapshot_isolation_witness :
    ReadersFresh sampleMvcc
    ∧ ((Reader.mk (mvccRun sampleMvcc []).nextRid
          (mvccRun sampleMvcc []).published).meta
        = (mvccRun sampleMvcc []).published
      ∧ (Reader.mk (mvccRun sampleMvcc []).nextRid
            (mvccRun sampleMvcc []).published
          ∈ (mvccRun (mvccStep (mvccRun sampleMvcc [])
              MvccEvent.beginReader) sampleEvents).readers →
        ∀ p ∈ (mvccRun sampleMvcc []).published.reach,
          readPage (mvccRun (mvccStep (mvccRun sampleMvcc [])
              MvccEvent.beginReader) sampleEvents) p
            = readPage (mvccRun sampleMvcc []) p)) :=
  ⟨fun r hr => absurd hr (List.not_mem_nil r),
    mvcc_reader_snapshot_isolation sampleMvcc [] sampleEvents
      (fun r hr => absurd hr (List.not_mem_nil r))⟩

end Blot
